import Mathlib

/-!
Shallow embedding of the Feathered_Deals backend (`src/backend/main.py`), a
FastAPI + MongoDB CRUD service for pet records, together with proofs of the
specification claims.

Modelling conventions:
* A MongoDB document written by this service is the structure `Doc`; the
  collection (`pets_collection`) is a list of documents in natural
  (insertion) order.
* A BSON `ObjectId` is represented by its 24-character lowercase hex string
  (`str(ObjectId)`); `ObjectId(s)` validation accepts 24 hex characters of
  either case (`isValidObjectId` / `parseObjectId`).
* Wall-clock time is a natural number of seconds; the formatted string
  `datetime.now(ist).strftime("%Y-%m-%d %H:%M:%S")` is second-granular and,
  in the fixed DST-free `Asia/Kolkata` zone, a strictly monotone injection of
  the second count, so a timestamp value is embedded as `Jval.timestamp t`
  with `t` the second count; comparisons of the formatted strings agree with
  comparisons of the `t`s.
* Python floats are modelled as rationals; `f"{x:.2f}"` is fixed-point
  formatting with round-half-to-even (`fixed2`).
* An `HTTPException(status_code, detail)` is `HError`; a handler that can
  raise returns `Except HError`.  Stateful handlers also return the
  collection after the call.
-/

namespace FeatheredDeals

/-- A Python number that is an `int` or a `float` (the type of `age`,
`Optional[Union[int, float]]`, preserving the numeric subtype). -/
inductive PyNum where
  | int : Int → PyNum
  | float : Rat → PyNum
deriving DecidableEq

/-- A JSON value as produced by the serializer: a string, a number, a
formatted IST timestamp (identified by its second count), or `null`. -/
inductive Jval where
  | str : String → Jval
  | num : PyNum → Jval
  | timestamp : Nat → Jval
  | null : Jval
deriving DecidableEq

/-- A document of the `pets` collection as written by this service:
`_id` plus the six `Pet` model fields plus the timestamp fields.
`breed`, `pet_type` and `rate` are always present in documents written by
the service (the pydantic model requires them); `age`, `description`,
`image_url` and the timestamps may be absent (`none`). -/
structure Doc where
  _id : String
  breed : String
  pet_type : String
  age : Option PyNum
  rate : Rat
  description : Option String
  image_url : Option String
  created_at : Option Nat
  updated_at : Option Nat
deriving DecidableEq

/-- The inbound request body: the pydantic `Pet` model
(`breed`, `pet_type`, `rate` required; `age`, `description`, `image_url`
optional with default `None`). -/
structure Pet where
  breed : String
  pet_type : String
  age : Option PyNum := none
  rate : Rat
  description : Option String := none
  image_url : Option String := none
deriving DecidableEq

/-- An `HTTPException`: status code and detail message. -/
structure HError where
  status : Nat
  detail : String
deriving DecidableEq

/-- The `pets` collection, in natural (insertion) order. -/
abbrev Store := List Doc

/-- A hexadecimal digit character (either case), as accepted by
`bson.ObjectId` for a 24-character string. -/
def isHexChar (c : Char) : Bool :=
  c.isDigit || (97 ≤ c.toNat && c.toNat ≤ 102) || (65 ≤ c.toNat && c.toNat ≤ 70)

/-- Validity of a string for `ObjectId(s)`: exactly 24 hex characters. -/
def isValidObjectId (s : String) : Bool :=
  s.length == 24 && s.toList.all isHexChar

/-- Lowercasing of a string, character by character (`s.lower()`). -/
def strLower (s : String) : String := ⟨s.data.map Char.toLower⟩

/-- Parsing `ObjectId(pet_id)`: `none` models the `InvalidId` exception; on success
the id is canonicalised to lowercase (`str(ObjectId(s)) = s.lower()`). -/
def parseObjectId (s : String) : Option String :=
  if isValidObjectId s then some (strLower s) else none

/-- The value `100 * q` rounded to an integer with ties to even: the rounding that
`format(x, ".2f")` applies to the exact value of the float `x`, computed on
the reduced fraction `q.num / q.den` with integer arithmetic
(`f = ⌊100q⌋` and the remainder `100q - f` is compared with `1/2` by
comparing `r2 = 2·(100·num - f·den)` with `den`). -/
def roundHalfEven100 (q : Rat) : Int :=
  let n := q.num * 100
  let d := (q.den : Int)
  let f := Int.fdiv n d
  let r2 := 2 * (n - f * d)
  if r2 < d then f
  else if d < r2 then f + 1
  else if f % 2 = 0 then f else f + 1

/-- The two-digit zero-padded rendering of `m < 100`. -/
def twoDigits (m : Nat) : String :=
  (if m < 10 then "0" else "") ++ toString m

/-- Python `f"{q:.2f}"` on the rational model of the float `q`. -/
def fixed2 (q : Rat) : String :=
  let n := roundHalfEven100 q
  let sign := if n < 0 then "-" else ""
  sign ++ toString (n.natAbs / 100) ++ "." ++ twoDigits (n.natAbs % 100)

/-- The INR rendering of `rate` by the serializer (currency symbol followed
by the fixed two-decimal rendering). -/
def formatRate (q : Rat) : String := "₹" ++ fixed2 q

/-- Serialization of `pet.get("age")`. -/
def jOptNum : Option PyNum → Jval
  | none => .null
  | some n => .num n

/-- An optional string field serialized (`None` renders as `null`). -/
def jOptStr : Option String → Jval
  | none => .null
  | some s => .str s

/-- An optional timestamp field serialized (`None` renders as `null`). -/
def jOptTime : Option Nat → Jval
  | none => .null
  | some t => .timestamp t

/-- Function `pet_serializer` (main.py lines 57-69): the store-to-wire codec.
Produces the ten external keys in source order; `pet["breed"]`,
`pet["pet_type"]`, `pet["rate"]` are required lookups and the rest use
`.get`, rendering missing fields as `null`. -/
def pet_serializer (pet : Doc) : List (String × Jval) :=
  [("id", .str pet._id),
   ("breed", .str pet.breed),
   ("pet_type", .str pet.pet_type),
   ("age", jOptNum pet.age),
   ("rate", .str (formatRate pet.rate)),
   ("description", jOptStr pet.description),
   ("image_url", jOptStr pet.image_url),
   ("contact_number", .str "7036131241"),
   ("created_at", jOptTime pet.created_at),
   ("updated_at", jOptTime pet.updated_at)]

/-- Lookup `pets_collection.find_one` by id: first document in natural
order whose `_id` matches. -/
def find_one (oid : String) : Store → Option Doc
  | [] => none
  | d :: ds => if d._id = oid then some d else find_one oid ds

/-- The document inserted by `create_pet`: the payload fields plus
`created_at` set to the current IST second, with the driver-assigned id. -/
def newDoc (pet : Pet) (newId : String) (now : Nat) : Doc :=
  { _id := newId, breed := pet.breed, pet_type := pet.pet_type,
    age := pet.age, rate := pet.rate, description := pet.description,
    image_url := pet.image_url, created_at := some now, updated_at := none }

/-- Handler `create_pet` (main.py lines 72-96): stamp `created_at`, insert, re-fetch
by the inserted id and serialize.  `newId` is the ObjectId assigned by the
driver and `now` the current IST second. -/
def create_pet (pet : Pet) (newId : String) (now : Nat) (store : Store) :
    Except HError (List (String × Jval)) × Store :=
  let store2 := store ++ [newDoc pet newId now]
  match find_one newId store2 with
  | some inserted => (.ok (pet_serializer inserted), store2)
  | none => (.error ⟨500, "Error creating pet"⟩, store2)

/-- Handler `get_pets` (main.py lines 99-102): serialize the full collection scan. -/
def get_pets (store : Store) : List (List (String × Jval)) :=
  store.map pet_serializer

/-- Handler `get_pet` (main.py lines 105-115): validate the id, then look up. -/
def get_pet (pet_id : String) (store : Store) :
    Except HError (List (String × Jval)) :=
  match parseObjectId pet_id with
  | none => .error ⟨400, "Invalid pet ID format"⟩
  | some oid =>
    match find_one oid store with
    | some pet => .ok (pet_serializer pet)
    | none => .error ⟨404, "Pet not found"⟩

/-- The `$set` document of `update_pet`: `updated_pet.model_dump()` (all six
editable fields, defaults included) plus the refreshed `updated_at`.
`_id` and `created_at` are not in the `$set` document. -/
def setFields (pet : Pet) (now : Nat) (d : Doc) : Doc :=
  { d with
    breed := pet.breed, pet_type := pet.pet_type, age := pet.age,
    rate := pet.rate, description := pet.description,
    image_url := pet.image_url, updated_at := some now }

/-- Update `pets_collection.update_one` by id: apply `f` to
the first matching document; also return `matched_count`. -/
def update_one (oid : String) (f : Doc → Doc) : Store → Store × Nat
  | [] => ([], 0)
  | d :: ds =>
    if d._id = oid then (f d :: ds, 1)
    else
      let r := update_one oid f ds
      (d :: r.1, r.2)

/-- Handler `update_pet` (main.py lines 118-134): validate the id, set all model
fields plus `updated_at`, 404 when nothing matched, else re-fetch and
serialize. -/
def update_pet (pet_id : String) (pet : Pet) (now : Nat) (store : Store) :
    Except HError (List (String × Jval)) × Store :=
  match parseObjectId pet_id with
  | none => (.error ⟨400, "Invalid pet ID format"⟩, store)
  | some oid =>
    let r := update_one oid (setFields pet now) store
    if r.2 = 0 then (.error ⟨404, "Pet not found"⟩, r.1)
    else
      match find_one oid r.1 with
      | some d => (.ok (pet_serializer d), r.1)
      | none => (.error ⟨500, "Internal Server Error"⟩, r.1)

/-- Deletion `pets_collection.delete_one` by id: remove the first matching
document; also return `deleted_count`. -/
def delete_one (oid : String) : Store → Store × Nat
  | [] => ([], 0)
  | d :: ds =>
    if d._id = oid then (ds, 1)
    else
      let r := delete_one oid ds
      (d :: r.1, r.2)

/-- Handler `delete_pet` (main.py lines 137-149): validate the id, delete the
matching document, 404 when nothing was deleted. -/
def delete_pet (pet_id : String) (store : Store) :
    Except HError String × Store :=
  match parseObjectId pet_id with
  | none => (.error ⟨400, "Invalid pet ID format"⟩, store)
  | some oid =>
    let r := delete_one oid store
    if r.2 = 0 then (.error ⟨404, "Pet not found"⟩, r.1)
    else (.ok "Pet deleted successfully", r.1)

/-- Handler `delete_all_pets` (main.py lines 152-156): delete-many empties the
collection and reports the count of removed documents. -/
def delete_all_pets (store : Store) : String × Store :=
  let deleted_count := store.length
  ("Deleted " ++ toString deleted_count ++ " pets successfully", [])

/-- A concrete valid ObjectId (24 lowercase hex characters). -/
def cid : String := "0123456789abcdef01234567"

/-- A second concrete valid ObjectId distinct from `cid`. -/
def cid2 : String := "ffffffffffffffffffffffff"

/-- The concrete payload of the spec scenario:
`{breed:"Labrador", pet_type:"dog", rate:500}`. -/
def pet0 : Pet :=
  { breed := "Labrador", pet_type := "dog", rate := 500 }

/-- A second concrete payload whose every field differs from `pet0`. -/
def pet1 : Pet :=
  { breed := "Beagle", pet_type := "puppy", age := some (.int 3),
    rate := mkRat 39 2, description := some "friendly",
    image_url := some "http://img.example/beagle.png" }

/-- A concrete stored document with id `cid`, created at second 5, all
optional fields absent. -/
def doc0 : Doc :=
  { _id := cid, breed := "Labrador", pet_type := "dog", age := none,
    rate := 500, description := none, image_url := none,
    created_at := some 5, updated_at := none }

/-- A stored document with id `cid2` and every optional field absent. -/
def docNone : Doc :=
  { _id := cid2, breed := "Parrot", pet_type := "bird", age := none,
    rate := 50, description := none, image_url := none,
    created_at := none, updated_at := none }

/-! ### Store-level lemmas -/

theorem find_one_eq_none {oid : String} {store : Store}
    (h : ∀ d ∈ store, d._id ≠ oid) : find_one oid store = none := by
  induction store with
  | nil => rfl
  | cons d ds ih =>
    have hd : d._id ≠ oid := h d (List.mem_cons_self d ds)
    simp only [find_one, if_neg hd]
    exact ih fun x hx => h x (List.mem_cons_of_mem d hx)

theorem find_one_found {oid : String} {pre post : Store} {d : Doc}
    (hpre : ∀ x ∈ pre, x._id ≠ oid) (hd : d._id = oid) :
    find_one oid (pre ++ d :: post) = some d := by
  induction pre with
  | nil => simp [find_one, hd]
  | cons x xs ih =>
    have hx : x._id ≠ oid := hpre x (List.mem_cons_self x xs)
    simp only [List.cons_append, find_one, if_neg hx]
    exact ih fun y hy => hpre y (List.mem_cons_of_mem x hy)

theorem update_one_not_mem {oid : String} (f : Doc → Doc) {store : Store}
    (h : ∀ d ∈ store, d._id ≠ oid) : update_one oid f store = (store, 0) := by
  induction store with
  | nil => rfl
  | cons d ds ih =>
    have hd : d._id ≠ oid := h d (List.mem_cons_self d ds)
    have ih2 := ih fun x hx => h x (List.mem_cons_of_mem d hx)
    simp [update_one, if_neg hd, ih2]

theorem update_one_found {oid : String} (f : Doc → Doc) {pre post : Store}
    {d : Doc} (hpre : ∀ x ∈ pre, x._id ≠ oid) (hd : d._id = oid) :
    update_one oid f (pre ++ d :: post) = (pre ++ f d :: post, 1) := by
  induction pre with
  | nil => simp [update_one, hd]
  | cons x xs ih =>
    have hx : x._id ≠ oid := hpre x (List.mem_cons_self x xs)
    have ih2 := ih fun y hy => hpre y (List.mem_cons_of_mem x hy)
    simp [update_one, if_neg hx, ih2]

theorem delete_one_not_mem {oid : String} {store : Store}
    (h : ∀ d ∈ store, d._id ≠ oid) : delete_one oid store = (store, 0) := by
  induction store with
  | nil => rfl
  | cons d ds ih =>
    have hd : d._id ≠ oid := h d (List.mem_cons_self d ds)
    have ih2 := ih fun x hx => h x (List.mem_cons_of_mem d hx)
    simp [delete_one, if_neg hd, ih2]

theorem delete_one_found {oid : String} {pre post : Store} {d : Doc}
    (hpre : ∀ x ∈ pre, x._id ≠ oid) (hd : d._id = oid) :
    delete_one oid (pre ++ d :: post) = (pre ++ post, 1) := by
  induction pre with
  | nil => simp [delete_one, hd]
  | cons x xs ih =>
    have hx : x._id ≠ oid := hpre x (List.mem_cons_self x xs)
    have ih2 := ih fun y hy => hpre y (List.mem_cons_of_mem x hy)
    simp [delete_one, if_neg hx, ih2]

/-! ### Handler-level lemmas -/

theorem create_pet_eq (pet : Pet) (newId : String) (now : Nat) (store : Store)
    (hfresh : ∀ d ∈ store, d._id ≠ newId) :
    create_pet pet newId now store
      = (.ok (pet_serializer (newDoc pet newId now)),
         store ++ [newDoc pet newId now]) := by
  have h1 : find_one newId (store ++ newDoc pet newId now :: [])
      = some (newDoc pet newId now) := find_one_found hfresh rfl
  simp only [create_pet, h1]

theorem get_pet_found {pet_id oid : String} {pre post : Store} {d : Doc}
    (hid : parseObjectId pet_id = some oid)
    (hpre : ∀ x ∈ pre, x._id ≠ oid) (hd : d._id = oid) :
    get_pet pet_id (pre ++ d :: post) = .ok (pet_serializer d) := by
  simp only [get_pet, hid, find_one_found hpre hd]

theorem update_pet_found {pet_id oid : String} (pet : Pet) (now : Nat)
    {pre post : Store} {d : Doc}
    (hid : parseObjectId pet_id = some oid)
    (hpre : ∀ x ∈ pre, x._id ≠ oid) (hd : d._id = oid) :
    update_pet pet_id pet now (pre ++ d :: post)
      = (.ok (pet_serializer (setFields pet now d)),
         pre ++ setFields pet now d :: post) := by
  have hd2 : (setFields pet now d)._id = oid := hd
  simp [update_pet, hid, update_one_found (setFields pet now) hpre hd,
    find_one_found hpre hd2]

/-! ### Claim theorems -/

/-- C1: for every valid entity payload, `create` followed by `get-one` on
the returned id yields the serialized record in which every submitted field
is intact (serialized by the codec), `contact_number` is the fixed literal
`"7036131241"`, `created_at` is present (the creation time), and
`updated_at` is absent (rendered `null`).  `hid` states that the
driver-assigned id is a canonical ObjectId string and `hfresh` that it is
fresh for the store, which MongoDB guarantees for `inserted_id`. -/
theorem create_then_get_intact (pet : Pet) (newId : String) (now : Nat)
    (store : Store)
    (hid : parseObjectId newId = some newId)
    (hfresh : ∀ d ∈ store, d._id ≠ newId) :
    (create_pet pet newId now store).1
      = .ok (pet_serializer (newDoc pet newId now)) ∧
    get_pet newId (create_pet pet newId now store).2
      = .ok (pet_serializer (newDoc pet newId now)) ∧
    (pet_serializer (newDoc pet newId now)).lookup "id"
      = some (.str newId) ∧
    (pet_serializer (newDoc pet newId now)).lookup "breed"
      = some (.str pet.breed) ∧
    (pet_serializer (newDoc pet newId now)).lookup "pet_type"
      = some (.str pet.pet_type) ∧
    (pet_serializer (newDoc pet newId now)).lookup "age"
      = some (jOptNum pet.age) ∧
    (pet_serializer (newDoc pet newId now)).lookup "rate"
      = some (.str (formatRate pet.rate)) ∧
    (pet_serializer (newDoc pet newId now)).lookup "description"
      = some (jOptStr pet.description) ∧
    (pet_serializer (newDoc pet newId now)).lookup "image_url"
      = some (jOptStr pet.image_url) ∧
    (pet_serializer (newDoc pet newId now)).lookup "contact_number"
      = some (.str "7036131241") ∧
    (pet_serializer (newDoc pet newId now)).lookup "created_at"
      = some (.timestamp now) ∧
    (pet_serializer (newDoc pet newId now)).lookup "updated_at"
      = some .null := by
  have hc := create_pet_eq pet newId now store hfresh
  refine ⟨?_, ?_, rfl, rfl, rfl, rfl, rfl, rfl, rfl, rfl, rfl, rfl⟩
  · rw [hc]
  · rw [hc]
    exact get_pet_found hid hfresh rfl

/-- Witness for C1 at the concrete payload `pet0`, id `cid`, time 7,
empty store. -/
theorem create_then_get_intact_witness :
    parseObjectId cid = some cid ∧
    get_pet cid (create_pet pet0 cid 7 []).2
      = .ok (pet_serializer (newDoc pet0 cid 7)) :=
  ⟨by decide,
   (create_then_get_intact pet0 cid 7 [] (by decide) (by simp)).2.1⟩

/-- C2: update is a full replace of all six editable fields, not a merge
patch: for a store containing a document `d` with the requested id (first
match decomposition `pre ++ d :: post`), `update_pet` replaces `d` by
`setFields pet now d`, whose `breed`, `pet_type`, `age`, `rate`,
`description` and `image_url` all come from the input payload, and whose
`updated_at` is the current time unconditionally — there is no hypothesis
comparing the payload with the stored values, so `updated_at` is refreshed
even when nothing changed. -/
theorem update_full_replace (pet_id oid : String) (pet : Pet) (now : Nat)
    (pre post : Store) (d : Doc)
    (hid : parseObjectId pet_id = some oid)
    (hpre : ∀ x ∈ pre, x._id ≠ oid) (hd : d._id = oid) :
    update_pet pet_id pet now (pre ++ d :: post)
      = (.ok (pet_serializer (setFields pet now d)),
         pre ++ setFields pet now d :: post) ∧
    (setFields pet now d).breed = pet.breed ∧
    (setFields pet now d).pet_type = pet.pet_type ∧
    (setFields pet now d).age = pet.age ∧
    (setFields pet now d).rate = pet.rate ∧
    (setFields pet now d).description = pet.description ∧
    (setFields pet now d).image_url = pet.image_url ∧
    (setFields pet now d).updated_at = some now :=
  ⟨update_pet_found pet now hid hpre hd, rfl, rfl, rfl, rfl, rfl, rfl, rfl⟩

/-- Witness for C2 at the concrete document `doc0` (whose fields all differ
from the payload `pet1`) and time 9. -/
theorem update_full_replace_witness :
    parseObjectId cid = some cid ∧ doc0._id = cid ∧
    update_pet cid pet1 9 [doc0]
      = (.ok (pet_serializer (setFields pet1 9 doc0)), [setFields pet1 9 doc0]) :=
  ⟨by decide, rfl,
   (update_full_replace cid cid pet1 9 [] [] doc0 (by decide) (by simp) rfl).1⟩

/-- C8: update leaves the `_id` and `created_at` of the document unchanged: the
`$set` document built from the payload contains neither field, so the
stored document keeps both; `created_at` is written only at creation. -/
theorem update_preserves_id_and_created_at (pet_id oid : String) (pet : Pet)
    (now : Nat) (pre post : Store) (d : Doc)
    (hid : parseObjectId pet_id = some oid)
    (hpre : ∀ x ∈ pre, x._id ≠ oid) (hd : d._id = oid) :
    (update_pet pet_id pet now (pre ++ d :: post)).2
      = pre ++ setFields pet now d :: post ∧
    (setFields pet now d)._id = d._id ∧
    (setFields pet now d).created_at = d.created_at := by
  refine ⟨?_, rfl, rfl⟩
  rw [update_pet_found pet now hid hpre hd]

/-- Witness for C8 at the concrete document `doc0` and time 11. -/
theorem update_preserves_id_and_created_at_witness :
    doc0.created_at = some 5 ∧
    (setFields pet1 11 doc0)._id = doc0._id ∧
    (setFields pet1 11 doc0).created_at = doc0.created_at :=
  ⟨rfl,
   (update_preserves_id_and_created_at cid cid pet1 11 [] [] doc0
      (by decide) (by simp) rfl).2.1,
   (update_preserves_id_and_created_at cid cid pet1 11 [] [] doc0
      (by decide) (by simp) rfl).2.2⟩

/-- C3: for every string that is not a syntactically valid ObjectId,
`get_pet`, `update_pet` and `delete_pet` return the 400 invalid-input
error, the store is unchanged, and the store is never queried: the result
is the same whatever the store contents are. -/
theorem invalid_id_rejected (s : String) (pet : Pet) (now : Nat)
    (store : Store) (hbad : parseObjectId s = none) :
    get_pet s store = .error ⟨400, "Invalid pet ID format"⟩ ∧
    update_pet s pet now store = (.error ⟨400, "Invalid pet ID format"⟩, store) ∧
    delete_pet s store = (.error ⟨400, "Invalid pet ID format"⟩, store) ∧
    (∀ other : Store,
      get_pet s other = get_pet s store ∧
      (update_pet s pet now other).1 = (update_pet s pet now store).1 ∧
      (delete_pet s other).1 = (delete_pet s store).1) := by
  refine ⟨?_, ?_, ?_, fun other => ⟨?_, ?_, ?_⟩⟩ <;>
    simp [get_pet, update_pet, delete_pet, hbad]

/-- Witness for C3 at the string `"xyz"` of the spec. -/
theorem invalid_id_rejected_witness :
    parseObjectId "xyz" = none ∧
    get_pet "xyz" [doc0] = .error ⟨400, "Invalid pet ID format"⟩ :=
  ⟨by decide, (invalid_id_rejected "xyz" pet1 9 [doc0] (by decide)).1⟩

/-- C4: for every syntactically valid ObjectId matching no stored document,
`get_pet`, `update_pet` and `delete_pet` return the 404 not-found error and
the store is unchanged. -/
theorem unknown_id_not_found (s oid : String) (pet : Pet) (now : Nat)
    (store : Store)
    (hid : parseObjectId s = some oid)
    (hmiss : ∀ d ∈ store, d._id ≠ oid) :
    get_pet s store = .error ⟨404, "Pet not found"⟩ ∧
    update_pet s pet now store = (.error ⟨404, "Pet not found"⟩, store) ∧
    delete_pet s store = (.error ⟨404, "Pet not found"⟩, store) := by
  refine ⟨?_, ?_, ?_⟩ <;>
    simp [get_pet, update_pet, delete_pet, hid, find_one_eq_none hmiss,
      update_one_not_mem (setFields pet now) hmiss, delete_one_not_mem hmiss]

/-- Witness for C4 at the valid unmatched id `cid2` over the one-document
store `[doc0]`. -/
theorem unknown_id_not_found_witness :
    parseObjectId cid2 = some cid2 ∧
    get_pet cid2 [doc0] = .error ⟨404, "Pet not found"⟩ :=
  ⟨by decide, (unknown_id_not_found cid2 cid2 pet1 9 [doc0] (by decide)
      (by decide)).1⟩

/-- C5: `delete-all` followed by `list-all` yields the empty sequence, and
the count `N` in the confirmation message `"Deleted N pets successfully"`
is the number of documents in the store beforehand (equivalently, the
length of the sequence `list-all` would have returned). -/
theorem delete_all_then_list (store : Store) :
    (delete_all_pets store).1
      = "Deleted " ++ toString store.length ++ " pets successfully" ∧
    (delete_all_pets store).2 = [] ∧
    get_pets (delete_all_pets store).2 = [] ∧
    store.length = (get_pets store).length := by
  refine ⟨rfl, rfl, rfl, ?_⟩
  simp [get_pets]

/-- C10: `list-all` maps the codec over the whole store: it returns exactly
one codec-shaped record per stored document, the `i`-th output coming from
the `i`-th document (insertion/storage order, no pagination), with no
failure condition and the empty sequence on the empty store. -/
theorem list_all_codec_ordered :
    (∀ store : Store, (get_pets store).length = store.length) ∧
    (∀ store : Store, ∀ i : Nat,
      (get_pets store)[i]? = store[i]?.map pet_serializer) ∧
    get_pets [] = [] := by
  refine ⟨fun store => ?_, fun store i => ?_, rfl⟩
  · simp [get_pets]
  · simp [get_pets]

theorem twoDigits_spec : ∀ m, m < 100 →
    (twoDigits m).length = 2 ∧ (twoDigits m).data.all Char.isDigit = true := by
  decide

theorem div_eq_mkRat : (mkRat 39 2 : Rat) = 39 / 2 := by
  rw [Rat.mkRat_eq_div]; norm_num

/-- C6: the codec renders `rate` as the currency symbol followed by the
value to exactly two decimal places: the rendered string decomposes as
`"₹" ++ a ++ "." ++ b` with `b` exactly two decimal digits; and the concrete
concrete values hold: rate `19.5` renders as `"₹19.50"` and rate `100` as
`"₹100.00"`. -/
theorem rate_currency_two_decimals :
    (∀ d : Doc, (pet_serializer d).lookup "rate"
      = some (.str (formatRate d.rate))) ∧
    (∀ q : Rat, ∃ a : String, ∃ m : Nat, m < 100 ∧
      formatRate q = "₹" ++ a ++ "." ++ twoDigits m ∧
      (twoDigits m).length = 2 ∧ (twoDigits m).data.all Char.isDigit = true) ∧
    formatRate (39 / 2 : Rat) = "₹19.50" ∧
    formatRate (100 : Rat) = "₹100.00" := by
  refine ⟨fun d => rfl, fun q => ?_, ?_, by decide⟩
  · have hm : (roundHalfEven100 q).natAbs % 100 < 100 := Nat.mod_lt _ (by norm_num)
    refine ⟨(if roundHalfEven100 q < 0 then "-" else "")
        ++ toString ((roundHalfEven100 q).natAbs / 100),
      (roundHalfEven100 q).natAbs % 100, hm, ?_,
      (twoDigits_spec _ hm).1, (twoDigits_spec _ hm).2⟩
    simp [formatRate, fixed2, String.append_assoc]
  · rw [← div_eq_mkRat]; decide

/-- C9: the codec is total on documents carrying the required fields
`breed`, `pet_type`, `rate` (every `Doc` carries them, as every document
written by the service does): it never fails for missing optional fields,
its output has exactly the ten external keys in order, and each absent
optional field (`age`, `description`, `image_url`, `updated_at`, and
likewise `created_at`) renders as `null`. -/
theorem serializer_keys_and_null_optionals (d : Doc) :
    (pet_serializer d).map Prod.fst
      = ["id", "breed", "pet_type", "age", "rate", "description",
         "image_url", "contact_number", "created_at", "updated_at"] ∧
    (d.age = none → (pet_serializer d).lookup "age" = some .null) ∧
    (d.description = none →
      (pet_serializer d).lookup "description" = some .null) ∧
    (d.image_url = none →
      (pet_serializer d).lookup "image_url" = some .null) ∧
    (d.updated_at = none →
      (pet_serializer d).lookup "updated_at" = some .null) ∧
    (d.created_at = none →
      (pet_serializer d).lookup "created_at" = some .null) := by
  refine ⟨rfl, fun h => ?_, fun h => ?_, fun h => ?_, fun h => ?_, fun h => ?_⟩
  all_goals simp [pet_serializer, jOptNum, jOptStr, jOptTime, h, List.lookup]

/-- Witness for C9 at the concrete all-optionals-absent document
`docNone`. -/
theorem serializer_keys_and_null_optionals_witness :
    docNone.age = none ∧
    (pet_serializer docNone).lookup "age" = some .null ∧
    (pet_serializer docNone).lookup "updated_at" = some .null :=
  ⟨rfl, (serializer_keys_and_null_optionals docNone).2.1 rfl,
   (serializer_keys_and_null_optionals docNone).2.2.2.2.1 rfl⟩

/-- C7 counterexample: the claim asserts `updated_at` strictly later than
`created_at`, but timestamps have second granularity
(`strftime("%Y-%m-%d %H:%M:%S")`): creating at second 5 and updating in
the same second 5 gives a record whose `updated_at` equals its
`created_at`, so it is not strictly later. -/
theorem same_second_update_not_strictly_later :
    get_pet cid (update_pet cid pet1 5 (create_pet pet0 cid 5 []).2).2
      = .ok (pet_serializer (setFields pet1 5 (newDoc pet0 cid 5))) ∧
    (pet_serializer (setFields pet1 5 (newDoc pet0 cid 5))).lookup "created_at"
      = some (.timestamp 5) ∧
    (pet_serializer (setFields pet1 5 (newDoc pet0 cid 5))).lookup "updated_at"
      = some (.timestamp 5) ∧
    ¬ (∃ t1 t2 : Nat, t1 < t2 ∧
      (pet_serializer (setFields pet1 5 (newDoc pet0 cid 5))).lookup "created_at"
        = some (.timestamp t1) ∧
      (pet_serializer (setFields pet1 5 (newDoc pet0 cid 5))).lookup "updated_at"
        = some (.timestamp t2)) := by
  refine ⟨rfl, rfl, rfl, ?_⟩
  rintro ⟨t1, t2, hlt, h1, h2⟩
  rw [show (pet_serializer (setFields pet1 5 (newDoc pet0 cid 5))).lookup
        "created_at" = some (.timestamp 5) from rfl] at h1
  rw [show (pet_serializer (setFields pet1 5 (newDoc pet0 cid 5))).lookup
        "updated_at" = some (.timestamp 5) from rfl] at h2
  simp only [Option.some.injEq, Jval.timestamp.injEq] at h1 h2
  omega

/-- C7 as amended: `update` then `get-one` returns the new field values
and `updated_at` refreshed to the update time; `updated_at` is strictly
later than `created_at` whenever the update happens at a strictly later
second (`hlt`) — within the same second the two timestamps are equal. -/
theorem update_then_get_refreshed (pet pet2 : Pet) (newId : String)
    (t1 t2 : Nat) (store : Store)
    (hid : parseObjectId newId = some newId)
    (hfresh : ∀ d ∈ store, d._id ≠ newId)
    (hlt : t1 < t2) :
    (update_pet newId pet2 t2 (create_pet pet newId t1 store).2).1
      = .ok (pet_serializer (setFields pet2 t2 (newDoc pet newId t1))) ∧
    get_pet newId (update_pet newId pet2 t2 (create_pet pet newId t1 store).2).2
      = .ok (pet_serializer (setFields pet2 t2 (newDoc pet newId t1))) ∧
    (pet_serializer (setFields pet2 t2 (newDoc pet newId t1))).lookup "breed"
      = some (.str pet2.breed) ∧
    (pet_serializer (setFields pet2 t2 (newDoc pet newId t1))).lookup "pet_type"
      = some (.str pet2.pet_type) ∧
    (pet_serializer (setFields pet2 t2 (newDoc pet newId t1))).lookup "age"
      = some (jOptNum pet2.age) ∧
    (pet_serializer (setFields pet2 t2 (newDoc pet newId t1))).lookup "rate"
      = some (.str (formatRate pet2.rate)) ∧
    (pet_serializer (setFields pet2 t2 (newDoc pet newId t1))).lookup "description"
      = some (jOptStr pet2.description) ∧
    (pet_serializer (setFields pet2 t2 (newDoc pet newId t1))).lookup "image_url"
      = some (jOptStr pet2.image_url) ∧
    (∃ a b : Nat, a < b ∧
      (pet_serializer (setFields pet2 t2 (newDoc pet newId t1))).lookup "created_at"
        = some (.timestamp a) ∧
      (pet_serializer (setFields pet2 t2 (newDoc pet newId t1))).lookup "updated_at"
        = some (.timestamp b)) := by
  have hc := create_pet_eq pet newId t1 store hfresh
  have hu := @update_pet_found newId newId pet2 t2 store []
    (newDoc pet newId t1) hid hfresh rfl
  refine ⟨?_, ?_, rfl, rfl, rfl, rfl, rfl, rfl, ⟨t1, t2, hlt, rfl, rfl⟩⟩
  · rw [hc, hu]
  · rw [hc, hu]
    exact get_pet_found hid hfresh rfl

/-- Witness for C7 as amended: create at second 5, update at second 9. -/
theorem update_then_get_refreshed_witness :
    (5 : Nat) < 9 ∧
    get_pet cid (update_pet cid pet1 9 (create_pet pet0 cid 5 []).2).2
      = .ok (pet_serializer (setFields pet1 9 (newDoc pet0 cid 5))) :=
  ⟨by decide,
   (update_then_get_refreshed pet0 pet1 cid 5 9 [] (by decide) (by simp)
      (by decide)).2.1⟩

end FeatheredDeals
